import Mathlib

/-!
Verification of `yt_summarizer.py` (YtSummarizer pipeline).

The Python source is shallowly embedded: `urlparse` / `parse_qs` from the
standard library are modelled on `List Char`, the class methods become pure
functions over an explicit instance record, `print` calls become an explicit
list of emitted diagnostic lines, `raise`/`except` becomes `Except` with an
explicit handler, and `functools.lru_cache` becomes an explicit
most-recent-first association list with capacity-bounded insertion.
-/

set_option maxRecDepth 4000

/-- Split a character list at the first occurrence of `c`
(Python `str.split(c, 1)` / `str.find(c)`). -/
def splitOnFirstChar (c : Char) : List Char → Option (List Char × List Char)
  | [] => none
  | x :: xs =>
    if x = c then some ([], xs)
    else
      match splitOnFirstChar c xs with
      | none => none
      | some p => some (x :: p.1, p.2)

/-- Boolean list-prefix test. -/
def listIsPrefixOf : List Char → List Char → Bool
  | [], _ => true
  | _ :: _, [] => false
  | x :: xs, y :: ys => x == y && listIsPrefixOf xs ys

/-- Boolean list-infix test (Python `sub in s` substring containment). -/
def listIsInfixOf : List Char → List Char → Bool
  | p, [] => p.isEmpty
  | p, x :: rest => listIsPrefixOf p (x :: rest) || listIsInfixOf p rest

/-- Python substring containment `pat in s`. -/
def strContains (s pat : String) : Bool := listIsInfixOf pat.toList s.toList

/-- Value of a hexadecimal digit, as accepted by `urllib.parse._hextobyte`. -/
def hexDigitVal (c : Char) : Option Nat :=
  if '0' ≤ c ∧ c ≤ '9' then some (c.toNat - '0'.toNat)
  else if 'a' ≤ c ∧ c ≤ 'f' then some (c.toNat - 'a'.toNat + 10)
  else if 'A' ≤ c ∧ c ≤ 'F' then some (c.toNat - 'A'.toNat + 10)
  else none

/-- The Unicode replacement character U+FFFD. -/
def utf8Repl : Char := Char.ofNat 0xFFFD

/-- Is `b` a UTF-8 continuation byte? -/
def isContByte (b : Nat) : Bool := 0x80 ≤ b && b ≤ 0xBF

/-- Lower bound of the first continuation byte of a 3-byte UTF-8 sequence. -/
def utf8Cont1Lo (b : Nat) : Nat := if b = 0xE0 then 0xA0 else 0x80

/-- Upper bound of the first continuation byte of a 3-byte UTF-8 sequence. -/
def utf8Cont1Hi (b : Nat) : Nat := if b = 0xED then 0x9F else 0xBF

/-- Lower bound of the first continuation byte of a 4-byte UTF-8 sequence. -/
def utf8Cont1Lo4 (b : Nat) : Nat := if b = 0xF0 then 0x90 else 0x80

/-- Upper bound of the first continuation byte of a 4-byte UTF-8 sequence. -/
def utf8Cont1Hi4 (b : Nat) : Nat := if b = 0xF4 then 0x8F else 0xBF

/-- UTF-8 decoding with `errors='replace'` semantics (one U+FFFD per maximal
invalid subpart, resuming at the offending byte), as performed by
`bytes.decode('utf-8', 'replace')` inside `urllib.parse.unquote`. -/
def utf8DecodeReplace : List Nat → List Char
  | [] => []
  | b :: bs =>
    if b ≤ 0x7F then Char.ofNat b :: utf8DecodeReplace bs
    else if 0xC2 ≤ b && b ≤ 0xDF then
      match bs with
      | [] => [utf8Repl]
      | b1 :: bs1 =>
        if isContByte b1 then
          Char.ofNat ((b - 0xC0) * 0x40 + (b1 - 0x80)) :: utf8DecodeReplace bs1
        else utf8Repl :: utf8DecodeReplace (b1 :: bs1)
    else if 0xE0 ≤ b && b ≤ 0xEF then
      match bs with
      | [] => [utf8Repl]
      | b1 :: bs1 =>
        if utf8Cont1Lo b ≤ b1 && b1 ≤ utf8Cont1Hi b then
          match bs1 with
          | [] => [utf8Repl]
          | b2 :: bs2 =>
            if isContByte b2 then
              Char.ofNat ((b - 0xE0) * 0x1000 + (b1 - 0x80) * 0x40 + (b2 - 0x80)) ::
                utf8DecodeReplace bs2
            else utf8Repl :: utf8DecodeReplace (b2 :: bs2)
        else utf8Repl :: utf8DecodeReplace (b1 :: bs1)
    else if 0xF0 ≤ b && b ≤ 0xF4 then
      match bs with
      | [] => [utf8Repl]
      | b1 :: bs1 =>
        if utf8Cont1Lo4 b ≤ b1 && b1 ≤ utf8Cont1Hi4 b then
          match bs1 with
          | [] => [utf8Repl]
          | b2 :: bs2 =>
            if isContByte b2 then
              match bs2 with
              | [] => [utf8Repl]
              | b3 :: bs3 =>
                if isContByte b3 then
                  Char.ofNat ((b - 0xF0) * 0x40000 + (b1 - 0x80) * 0x1000 +
                      (b2 - 0x80) * 0x40 + (b3 - 0x80)) :: utf8DecodeReplace bs3
                else utf8Repl :: utf8DecodeReplace (b3 :: bs3)
            else utf8Repl :: utf8DecodeReplace (b2 :: bs2)
        else utf8Repl :: utf8DecodeReplace (b1 :: bs1)
    else utf8Repl :: utf8DecodeReplace bs

/-- Tokens produced while percent-decoding: decoded/literal ASCII bytes, or a
non-ASCII character passed through untouched (`urllib.parse.unquote` only
byte-decodes the ASCII runs of its input). -/
inductive UqToken where
  | byteTok (b : Nat)
  | charTok (c : Char)

/-- Tokenize for percent-decoding: `%XY` with two hex digits becomes the byte
`0xXY`, a `%` not followed by two hex digits stays a literal `%` byte, other
ASCII characters become their own byte, non-ASCII characters pass through. -/
def uqTokens : List Char → List UqToken
  | [] => []
  | c :: rest =>
    if c = '%' then
      match rest with
      | c1 :: c2 :: rest2 =>
        match hexDigitVal c1, hexDigitVal c2 with
        | some hi, some lo => UqToken.byteTok (hi * 16 + lo) :: uqTokens rest2
        | _, _ => UqToken.byteTok 0x25 :: uqTokens (c1 :: c2 :: rest2)
      | [c1] => UqToken.byteTok 0x25 :: uqTokens [c1]
      | [] => [UqToken.byteTok 0x25]
    else if c.toNat ≤ 0x7F then UqToken.byteTok c.toNat :: uqTokens rest
    else UqToken.charTok c :: uqTokens rest

/-- Render percent-decoding tokens: maximal byte runs are UTF-8 decoded with
replacement, non-ASCII characters are emitted as-is. -/
def uqRenderAux : List UqToken → List Nat → List Char
  | [], acc => utf8DecodeReplace acc.reverse
  | UqToken.byteTok b :: rest, acc => uqRenderAux rest (b :: acc)
  | UqToken.charTok c :: rest, acc =>
    utf8DecodeReplace acc.reverse ++ c :: uqRenderAux rest []

/-- `urllib.parse.unquote` with UTF-8/replace (the `parse_qs` default). -/
def unquoteChars (l : List Char) : List Char := uqRenderAux (uqTokens l) []

/-- `nv.replace('+', ' ')` followed by `unquote`, as done by
`urllib.parse.parse_qsl` for each name and value. -/
def unquote_plus (l : List Char) : List Char :=
  unquoteChars (l.map (fun c => if c = '+' then ' ' else c))

/-! ### `urllib.parse.urlparse` model -/

/-- Result of `urllib.parse.urlparse` (the six named components). -/
structure UrlParseResult where
  scheme : String
  netloc : String
  path : String
  params : String
  query : String
  fragment : String
deriving DecidableEq, Repr

/-- `url.lstrip(_WHATWG_C0_CONTROL_OR_SPACE)`: drop leading characters with
code point at most U+0020. -/
def whatwgLstrip (l : List Char) : List Char := l.dropWhile (fun c => c.toNat ≤ 0x20)

/-- Removal of `_UNSAFE_URL_BYTES_TO_REMOVE` (tab, CR, LF) everywhere. -/
def removeUnsafeBytes (l : List Char) : List Char :=
  l.filter (fun c => !(c == '\t' || c == '\r' || c == '\n'))

/-- The input sanitation `urlsplit` applies before splitting. -/
def urlPreprocess (s : String) : List Char := removeUnsafeBytes (whatwgLstrip s.toList)

/-- Characters allowed in a URL scheme (`urllib.parse.scheme_chars`). -/
def isSchemeChar (c : Char) : Bool := c.isAlpha || c.isDigit || c == '+' || c == '-' || c == '.'

/-- Split off the scheme: the text before the first `:` when it is non-empty,
starts with an ASCII letter and has only scheme characters; lowercased. -/
def splitScheme (l : List Char) : List Char × List Char :=
  match splitOnFirstChar ':' l with
  | none => ([], l)
  | some p =>
    match p.1 with
    | [] => ([], l)
    | c0 :: rest0 =>
      if c0.isAlpha && (c0 :: rest0).all isSchemeChar then
        ((c0 :: rest0).map Char.toLower, p.2)
      else ([], l)

/-- A character ending the netloc (`urllib.parse._splitnetloc` stops at the
first of `/`, `?`, `#`). -/
def isNetlocDelim (c : Char) : Bool := c == '/' || c == '?' || c == '#'

/-- Split off the netloc: only when the rest starts with `//`; the netloc runs
from index 2 to the first of `/`, `?`, `#`. -/
def splitNetloc (l : List Char) : List Char × List Char :=
  if listIsPrefixOf ['/', '/'] l then
    ((l.drop 2).takeWhile (fun c => !isNetlocDelim c),
     (l.drop 2).dropWhile (fun c => !isNetlocDelim c))
  else ([], l)

/-- Split off the fragment at the first `#` (returns `(rest, fragment)`). -/
def splitFragment (l : List Char) : List Char × List Char :=
  match splitOnFirstChar '#' l with
  | none => (l, [])
  | some p => p

/-- Split off the query at the first `?` (returns `(rest, query)`). -/
def splitQuery (l : List Char) : List Char × List Char :=
  match splitOnFirstChar '?' l with
  | none => (l, [])
  | some p => p

/-- Split a character list at the last occurrence of `c`. -/
def splitOnLastChar (c : Char) (l : List Char) : Option (List Char × List Char) :=
  match splitOnFirstChar c l.reverse with
  | none => none
  | some p => some (p.2.reverse, p.1.reverse)

/-- `urllib.parse._splitparams`: when the path contains `;`, the params are
what follows the first `;` of the last path segment. -/
def splitParams (path : List Char) : List Char × List Char :=
  if path.contains ';' then
    match splitOnLastChar '/' path with
    | some p =>
      match splitOnFirstChar ';' p.2 with
      | some q => (p.1 ++ '/' :: q.1, q.2)
      | none => (path, [])
    | none =>
      match splitOnFirstChar ';' path with
      | some q => (q.1, q.2)
      | none => (path, [])
  else (path, [])

/-- The bracket checks `urlsplit` runs on the netloc: a `[` without `]` (or
`]` without `[`) raises `ValueError("Invalid IPv6 URL")`. A balanced
bracket pair makes recent CPython validate the bracketed host against the
IPv6/IPvFuture address grammar (`_check_bracketed_host`), which this
embedding does not reproduce; such netlocs are rejected with a sentinel
error so that no success path of the model covers them, and every theorem
below stays within bracket-free netlocs, where all CPython versions agree. -/
def bracketCheck (nl : List Char) : Except String Unit :=
  if (nl.contains '[' && !nl.contains ']') || (nl.contains ']' && !nl.contains '[') then
    Except.error "Invalid IPv6 URL"
  else if nl.contains '[' then
    Except.error "bracketed host: address validation not modelled"
  else Except.ok ()

/-- `urllib.parse._checknetloc`: returns at once for an empty or all-ASCII
netloc; for a non-ASCII netloc CPython raises `ValueError` when NFKC
normalization introduces one of `/?#@:`. NFKC needs the Unicode tables, so
the embedding rejects non-ASCII netlocs with a sentinel error; no success
path of the model covers them, and every theorem below stays within the
ASCII fast path, where model and library agree. -/
def checknetloc (nl : List Char) : Except String Unit :=
  if nl.isEmpty || nl.all (fun c => c.toNat ≤ 0x7F) then Except.ok ()
  else Except.error "netloc NFKC validation not modelled"

/-- Result of `urllib.parse.urlsplit` (five components, before the params
split of `urlparse`). -/
structure UrlSplitResult where
  scheme : List Char
  netloc : List Char
  path : List Char
  query : List Char
  fragment : List Char

/-- `urllib.parse.urlsplit` (default empty scheme, fragments allowed):
sanitize, split off scheme and netloc, run the netloc bracket checks, split
off fragment then query, and run `_checknetloc`; a raised `ValueError` is
an `Except.error`. -/
def urlsplitE (url : String) : Except String UrlSplitResult :=
  let l := urlPreprocess url
  let s1 := splitScheme l
  let s2 := splitNetloc s1.2
  match bracketCheck s2.1 with
  | Except.error e => Except.error e
  | Except.ok _ =>
    let s3 := splitFragment s2.2
    let s4 := splitQuery s3.1
    match checknetloc s2.1 with
    | Except.error e => Except.error e
    | Except.ok _ => Except.ok ⟨s1.1, s2.1, s4.1, s4.2, s3.2⟩

/-- `urllib.parse.uses_params`: the schemes for which `urlparse` splits
params off the path. -/
def usesParams : List String :=
  ["", "ftp", "hdl", "prospero", "http", "imap", "https", "shttp", "rtsp",
   "rtspu", "sip", "sips", "mms", "sftp", "tel"]

/-- `urllib.parse.urlparse`: `urlsplit`, then params are split off the path
only when the scheme is in `uses_params` and the path contains `;`. -/
def urlparse (url : String) : Except String UrlParseResult :=
  match urlsplitE url with
  | Except.error e => Except.error e
  | Except.ok r =>
    let pp :=
      if usesParams.contains (String.mk r.scheme) && r.path.contains ';' then
        splitParams r.path
      else (r.path, [])
    Except.ok ⟨String.mk r.scheme, String.mk r.netloc, String.mk pp.1,
      String.mk pp.2, String.mk r.query, String.mk r.fragment⟩

/-! ### `urllib.parse.parse_qs` model -/

/-- `str.split(c)` on every occurrence (never returns an empty list). -/
def splitAllOnChar (c : Char) : List Char → List (List Char)
  | [] => [[]]
  | x :: xs =>
    if x = c then [] :: splitAllOnChar c xs
    else
      match splitAllOnChar c xs with
      | [] => [[x]]
      | h :: t => (x :: h) :: t

/-- One `name=value` field of a query string, as handled by `parse_qsl` with
the default `keep_blank_values=False`: empty fields, fields without `=` and
fields with an empty raw value are skipped; name and value are
plus-replaced and percent-decoded. -/
def qsPair (field : List Char) : Option (String × String) :=
  if field.isEmpty then none
  else
    match splitOnFirstChar '=' field with
    | none => none
    | some p =>
      if p.2.isEmpty then none
      else some (String.mk (unquote_plus p.1), String.mk (unquote_plus p.2))

/-- `urllib.parse.parse_qsl` with default arguments (separator `&`). -/
def parse_qsl (qs : String) : List (String × String) :=
  if qs.isEmpty then [] else (splitAllOnChar '&' qs.toList).filterMap qsPair

/-- First value listed under `key` in `parse_qs(qs)`, i.e.
`parse_qs(qs)[key][0]`; `none` exactly when `key not in parse_qs(qs)`. -/
def parse_qs_first (qs : String) (key : String) : Option String :=
  ((parse_qsl qs).find? (fun p => p.1 == key)).map (fun p => p.2)

/-! ### `YtSummarizer.get_video_id` -/

/-- The body of the `try:` block of `get_video_id`; `Except.error` is a raised
`ValueError` carrying its message — either one raised inside `urlparse`
itself or one raised by the body's own checks. -/
def get_video_id_body (url : String) : Except String String :=
  match urlparse url with
  | Except.error e => Except.error e
  | Except.ok parsed =>
    if !(strContains parsed.netloc "youtube.com") then
      Except.error "Not a valid YouTube URL"
    else
      match parse_qs_first parsed.query "v" with
      | some w => Except.ok w
      | none =>
        if strContains parsed.netloc "youtu.be" then
          Except.ok (String.mk (parsed.path.toList.drop 1))
        else Except.error "Could not extract video ID"

/-- `YtSummarizer.get_video_id`: the `except` handler converts every raised
error into `None` plus one diagnostic line printed to standard output.
Returns the value and the list of printed lines. -/
def get_video_id (url : String) : Option String × List String :=
  match get_video_id_body url with
  | Except.ok w => (some w, [])
  | Except.error e => (none, ["Error extracting video ID: " ++ e])

/-! ### `YtSummarizer` instances and the transcript fetcher -/

/-- The `YtSummarizer` instance fields bound by `__init__`. -/
structure YtSummarizer where
  url : String
  model : String
deriving DecidableEq, Repr

/-- `YtSummarizer.__init__`: raises `ValueError` when the URL is falsy
(empty), otherwise stores `url` and `model` on the instance. -/
def ytSummarizerInit (url : String) (model : String) : Except String YtSummarizer :=
  if url.isEmpty then Except.error "URL cannot be empty"
  else Except.ok ⟨url, model⟩

/-- The default chat model name from the `__init__` signature. -/
def defaultModel : String := "llama3.2"

/-- One transcript segment as returned by
`YouTubeTranscriptApi.get_transcript`; only its `text` field is read. -/
structure Segment where
  text : String
deriving DecidableEq, Repr

/-- The external transcript service: `Except.error` is a raised exception. -/
abbrev TranscriptService := String → Except String (List Segment)

/-- Outcome of one run of the (uncached) body of `get_video_transcript`:
the returned value, the lines printed to standard output, and how many
calls were made to `YouTubeTranscriptApi.get_transcript`. -/
structure FetchOut where
  value : Option String
  printed : List String
  serviceCalls : Nat
deriving DecidableEq, Repr

/-- The body of `get_video_transcript` (before `lru_cache`): extract the
video id, return `None` when it is falsy (absent or empty), otherwise call
the transcript service once and join the segment texts with single spaces;
a raised service error is converted to `None` plus a diagnostic. -/
def get_video_transcript_run (url : String) (service : TranscriptService) : FetchOut :=
  let g := get_video_id url
  match g.1 with
  | none => ⟨none, g.2, 0⟩
  | some v =>
    if v.isEmpty then ⟨none, g.2, 0⟩
    else
      match service v with
      | Except.ok segs =>
        ⟨some (String.intercalate " " (segs.map Segment.text)), g.2, 1⟩
      | Except.error e => ⟨none, g.2 ++ ["Error getting transcript: " ++ e], 1⟩

/-- The `lru_cache` store: a most-recent-first association list from the
cache key (the bound instance, identified by object identity) to the cached
return value. -/
abbrev TranscriptCache := List (Nat × Option String)

/-- Outcome of one call of the memoized `get_video_transcript`. -/
structure MemoOut where
  value : Option String
  cache : TranscriptCache
  serviceCalls : Nat
  printed : List String
deriving DecidableEq, Repr

/-- `@lru_cache(maxsize=100) get_video_transcript`: on a hit the cached
value is returned, the entry moves to most-recent position and the body is
not run; on a miss the body runs once, the result is inserted most-recent
and, past 100 entries, the least-recently-used entry is dropped. `selfId`
is the identity of the bound instance, the cache key. -/
def get_video_transcript_memo (inst : YtSummarizer) (service : TranscriptService)
    (selfId : Nat) (cache : TranscriptCache) : MemoOut :=
  match cache.find? (fun p => p.1 == selfId) with
  | some p => ⟨p.2, (selfId, p.2) :: cache.eraseP (fun q => q.1 == selfId), 0, []⟩
  | none =>
    let r := get_video_transcript_run inst.url service
    ⟨r.value, ((selfId, r.value) :: cache).take 100, r.serviceCalls, r.printed⟩

/-! ### `YtSummarizer.summarize` -/

/-- One message of the chat request. -/
structure ChatMessage where
  role : String
  content : String
deriving DecidableEq, Repr

/-- The `message` field of an `ollama.chat` response. -/
structure ChatInnerMessage where
  content : String
deriving DecidableEq, Repr

/-- An `ollama.chat` response; only `response.message.content` is read. -/
structure ChatResponse where
  message : ChatInnerMessage
deriving DecidableEq, Repr

/-- The external chat service: `Except.error` is a raised exception. -/
abbrev ChatService := String → List ChatMessage → Except String ChatResponse

/-- The fixed system instruction of `summarize` (three adjacent Python
string literals, concatenated). -/
def systemMessageContent : String :=
  "You are a helpful assistant that summarizes YouTube videos from a transcript. " ++
  "Mention the title of the video and the name of the speaker. " ++
  "Also use bullet points wherever possible to make the summary more readable."

/-- The two-message chat request body of `summarize` for a transcript `t`. -/
def summarizeMessages (transcript : String) : List ChatMessage :=
  [⟨"system", systemMessageContent⟩,
   ⟨"user", "Here is the transcript:\n " ++ transcript⟩]

/-- Outcome of `summarize` from the point where the transcript is in hand:
the returned value, printed lines, whether `ollama.chat` was invoked, and
the exact request (model and messages) sent to it, when one was sent. -/
structure SummOut where
  value : Option String
  printed : List String
  chatCalled : Bool
  sentRequest : Option (String × List ChatMessage)
deriving DecidableEq, Repr

/-- `summarize` given the fetched transcript: a falsy transcript (absent or
empty) returns `None` with no chat call; otherwise `ollama.chat` is called
with the two-message request, its reply content is returned, and a raised
chat error is converted to `None` plus a diagnostic. -/
def summarizeWith (transcript : Option String) (model : String) (chat : ChatService) : SummOut :=
  match transcript with
  | none => ⟨none, [], false, none⟩
  | some t =>
    if t.isEmpty then ⟨none, [], false, none⟩
    else
      match chat model (summarizeMessages t) with
      | Except.ok r =>
        ⟨some r.message.content, [], true, some (model, summarizeMessages t)⟩
      | Except.error e =>
        ⟨none, ["Error generating summary: " ++ e], true, some (model, summarizeMessages t)⟩

/-! ### The instance across a sequence of method calls -/

/-- The three public methods of `YtSummarizer`. -/
inductive PipelineOp where
  | getVideoId
  | getTranscript
  | summarizeOp
deriving DecidableEq, Repr

/-- Whole-program state threaded through method calls: the instance, the
`lru_cache` store and everything printed so far. -/
structure ProgState where
  inst : YtSummarizer
  cache : TranscriptCache
  printed : List String
deriving DecidableEq, Repr

/-- Effect of one method call on the program state. `summarize` goes through
the memoized `get_video_transcript` exactly as in the source. -/
def stepOp (service : TranscriptService) (chat : ChatService) (selfId : Nat)
    (s : ProgState) : PipelineOp → ProgState
  | PipelineOp.getVideoId =>
    { s with printed := s.printed ++ (get_video_id s.inst.url).2 }
  | PipelineOp.getTranscript =>
    let m := get_video_transcript_memo s.inst service selfId s.cache
    { s with cache := m.cache, printed := s.printed ++ m.printed }
  | PipelineOp.summarizeOp =>
    let m := get_video_transcript_memo s.inst service selfId s.cache
    let r := summarizeWith m.value s.inst.model chat
    { s with cache := m.cache, printed := s.printed ++ m.printed ++ r.printed }

/-- Run a sequence of method calls left to right. -/
def runOps (service : TranscriptService) (chat : ChatService) (selfId : Nat)
    (s : ProgState) : List PipelineOp → ProgState
  | [] => s
  | op :: rest => runOps service chat selfId (stepOp service chat selfId s op) rest

/-! ### Concrete fixtures used by individual claims -/

/-- An instance on a non-YouTube host (its id extraction fails). -/
def c6BadInstance : YtSummarizer := ⟨"https://example.com/x", "llama3.2"⟩

/-- A concrete transcript service. -/
def c6Service : TranscriptService := fun _ => Except.ok [Segment.mk "hi"]

/-- First memoized call on `c6BadInstance` from an empty cache. -/
def c6First : MemoOut := get_video_transcript_memo c6BadInstance c6Service 0 []

/-- Second memoized call on `c6BadInstance`, on the cache the first left. -/
def c6Second : MemoOut := get_video_transcript_memo c6BadInstance c6Service 0 c6First.cache

/-! ### Helper lemmas -/

/-- When id extraction yields a non-empty id, the uncached transcript body
calls the service exactly once on that id and handles both outcomes. -/
theorem get_video_transcript_run_eq (url v : String) (service : TranscriptService)
    (h1 : (get_video_id url).1 = some v) (h2 : v ≠ "") :
    get_video_transcript_run url service =
      match service v with
      | Except.ok segs =>
        ⟨some (String.intercalate " " (segs.map Segment.text)), (get_video_id url).2, 1⟩
      | Except.error e =>
        ⟨none, (get_video_id url).2 ++ ["Error getting transcript: " ++ e], 1⟩ := by
  have hv : v.isEmpty = false := by
    cases hv : v.isEmpty
    · rfl
    · exact absurd ((String.isEmpty_iff v).1 hv) h2
  simp only [get_video_transcript_run, h1, hv, Bool.false_eq_true, if_false]

/-! ### Claims -/

/-- C2: for every URL that `urlparse` accepts, whose parsed host contains
`youtube.com` and whose query has a parameter `v`, `get_video_id` returns
the first `v` value (and prints nothing); in particular the long-form
example yields `ABC123`. URLs that `urlparse` rejects (bracket or netloc
validation) have no host and fall under the error conversion of C5. -/
theorem C2_long_form_query_extraction :
    (∀ url parsed w, urlparse url = Except.ok parsed →
      strContains parsed.netloc "youtube.com" = true →
      parse_qs_first parsed.query "v" = some w →
      get_video_id url = (some w, [])) ∧
    get_video_id "https://www.youtube.com/watch?v=ABC123" = (some "ABC123", []) := by
  constructor
  · intro url parsed w h0 h1 h2
    simp only [get_video_id, get_video_id_body, h0, h1, h2, Bool.not_true,
      Bool.false_eq_true, if_false]
  · decide

/-- Witness for C2 at a concrete long-form URL. -/
theorem C2_long_form_query_extraction_witness :
    urlparse "https://www.youtube.com/watch?v=XYZ9" =
      Except.ok ⟨"https", "www.youtube.com", "/watch", "", "v=XYZ9", ""⟩ ∧
    strContains "www.youtube.com" "youtube.com" = true ∧
    parse_qs_first "v=XYZ9" "v" = some "XYZ9" ∧
    get_video_id "https://www.youtube.com/watch?v=XYZ9" = (some "XYZ9", []) :=
  ⟨by rfl, by decide, by decide,
    C2_long_form_query_extraction.1 "https://www.youtube.com/watch?v=XYZ9"
      ⟨"https", "www.youtube.com", "/watch", "", "v=XYZ9", ""⟩ "XYZ9"
      (by rfl) (by decide) (by decide)⟩

/-- C4: with a working service, `get_video_transcript` returns all segment
texts joined with single spaces in order; in particular
`[{text:"Hello"}, {text:"world"}]` gives `"Hello world"`. -/
theorem C4_join_segments :
    (∀ url v service segs, (get_video_id url).1 = some v → v ≠ "" →
      service v = Except.ok segs →
      (get_video_transcript_run url service).value =
        some (String.intercalate " " (segs.map Segment.text))) ∧
    (get_video_transcript_run "https://www.youtube.com/watch?v=ABC123"
      (fun _ => Except.ok [Segment.mk "Hello", Segment.mk "world"])).value =
        some "Hello world" := by
  constructor
  · intro url v service segs h1 h2 h3
    rw [get_video_transcript_run_eq url v service h1 h2, h3]
  · decide

/-- Witness for C4 at the spec's `Hello world` example. -/
theorem C4_join_segments_witness :
    (get_video_id "https://www.youtube.com/watch?v=idW").1 = some "idW" ∧
    (get_video_transcript_run "https://www.youtube.com/watch?v=idW"
      (fun _ => Except.ok [Segment.mk "Hello", Segment.mk "world"])).value =
        some (String.intercalate " " ([Segment.mk "Hello", Segment.mk "world"].map
          Segment.text)) :=
  ⟨by decide,
    C4_join_segments.1 "https://www.youtube.com/watch?v=idW" "idW"
      (fun _ => Except.ok [Segment.mk "Hello", Segment.mk "world"])
      [Segment.mk "Hello", Segment.mk "world"] (by decide) (by decide) rfl⟩

/-- C5: for any URL that `urlparse` accepts whose parsed host lacks
`youtube.com`, `get_video_id` returns `None` and prints the
`Not a valid YouTube URL` diagnostic; every raised error — including ones
raised inside `urlparse` itself, such as `Invalid IPv6 URL` — is converted
by the handler into `None` plus a printed line (the function is total, so
no exception escapes), and an absent result always comes with a
diagnostic. -/
theorem C5_unrelated_host_absent :
    (∀ url parsed, urlparse url = Except.ok parsed →
      strContains parsed.netloc "youtube.com" = false →
      get_video_id url = (none, ["Error extracting video ID: Not a valid YouTube URL"])) ∧
    (∀ url e, get_video_id_body url = Except.error e →
      get_video_id url = (none, ["Error extracting video ID: " ++ e])) ∧
    (∀ url, (get_video_id url).1 = none → (get_video_id url).2 ≠ []) ∧
    get_video_id "https://[a/b" = (none, ["Error extracting video ID: Invalid IPv6 URL"]) := by
  refine ⟨?_, ?_, ?_, by decide⟩
  · intro url parsed h0 h
    simp only [get_video_id, get_video_id_body, h0, h, Bool.not_false, if_true]
    rfl
  · intro url e h
    simp only [get_video_id, h]
  · intro url h
    unfold get_video_id at h ⊢
    cases hb : get_video_id_body url with
    | ok w => rw [hb] at h; exact absurd h (by simp)
    | error e => simp

/-- Witness for C5 at the spec's unrelated-host example. -/
theorem C5_unrelated_host_absent_witness :
    urlparse "https://example.com/watch?v=ABC123" =
      Except.ok ⟨"https", "example.com", "/watch", "", "v=ABC123", ""⟩ ∧
    strContains "example.com" "youtube.com" = false ∧
    get_video_id "https://example.com/watch?v=ABC123" =
      (none, ["Error extracting video ID: Not a valid YouTube URL"]) :=
  ⟨by rfl, by decide,
    C5_unrelated_host_absent.1 "https://example.com/watch?v=ABC123"
      ⟨"https", "example.com", "/watch", "", "v=ABC123", ""⟩ (by rfl) (by decide)⟩

/-- C8: constructing with an empty URL raises `ValueError` at construction;
any non-empty URL constructs successfully, and a constructed instance always
stores a non-empty URL. -/
theorem C8_empty_url_construction :
    (∀ model, ytSummarizerInit "" model = Except.error "URL cannot be empty") ∧
    (∀ url model, url ≠ "" → ytSummarizerInit url model = Except.ok ⟨url, model⟩) ∧
    (∀ url model inst, ytSummarizerInit url model = Except.ok inst → inst.url ≠ "") := by
  refine ⟨?_, ?_, ?_⟩
  · intro model
    rfl
  · intro url model h
    have hv : url.isEmpty = false := by
      cases hv : url.isEmpty
      · rfl
      · exact absurd ((String.isEmpty_iff url).1 hv) h
    simp only [ytSummarizerInit, hv, Bool.false_eq_true, if_false]
  · intro url model inst h
    by_cases hv : url.isEmpty
    · simp only [ytSummarizerInit, hv, if_true] at h
      exact absurd h (by simp)
    · simp only [ytSummarizerInit, hv, if_false] at h
      cases h
      exact fun he => hv ((String.isEmpty_iff url).2 he)

/-- Witness for C8 at a concrete non-empty URL. -/
theorem C8_empty_url_construction_witness :
    ytSummarizerInit "https://www.youtube.com/watch?v=a" "llama3.2" =
      Except.ok ⟨"https://www.youtube.com/watch?v=a", "llama3.2"⟩ :=
  C8_empty_url_construction.2.1 "https://www.youtube.com/watch?v=a" "llama3.2" (by decide)

/-- C9: a falsy transcript (`None` or the empty string) makes `summarize`
return `None` without any chat call; the chat service runs only for a
non-empty transcript. -/
theorem C9_falsy_transcript_no_chat :
    (∀ model chat, summarizeWith none model chat = ⟨none, [], false, none⟩) ∧
    (∀ model chat, summarizeWith (some "") model chat = ⟨none, [], false, none⟩) ∧
    (∀ t model chat, (summarizeWith (some t) model chat).chatCalled = true → t ≠ "") := by
  refine ⟨fun _ _ => rfl, fun _ _ => rfl, ?_⟩
  intro t model chat h ht
  subst ht
  rw [show summarizeWith (some "") model chat = ⟨none, [], false, none⟩ from rfl] at h
  exact Bool.false_ne_true h

/-- Witness for C9: a non-empty transcript does call the chat service. -/
theorem C9_falsy_transcript_no_chat_witness :
    ("Hi" : String) ≠ "" ∧
    (summarizeWith (some "Hi") "llama3.2"
      (fun _ _ => Except.ok ⟨⟨"S"⟩⟩)).chatCalled = true :=
  ⟨C9_falsy_transcript_no_chat.2.2 "Hi" "llama3.2"
    (fun _ _ => Except.ok ⟨⟨"S"⟩⟩) (by decide), by decide⟩

/-- C1 counterexample: the claim as stated is false — for the short-link URL
`https://youtu.be/ABC123` the program returns `None`, not `"ABC123"`,
because the `'youtube.com' not in netloc` guard raises first. -/
theorem C1_short_link_counterexample :
    (get_video_id "https://youtu.be/ABC123").1 = none ∧
    (get_video_id "https://youtu.be/ABC123").1 ≠ some "ABC123" := by decide

/-- C1 (amended): every URL of the form `https://youtu.be/ID` yields `None`
plus the `Not a valid YouTube URL` diagnostic; the path-with-leading-
separator-stripped identifier is produced only for URLs that `urlparse`
accepts whose host contains both `youtube.com` and `youtu.be` and whose
query has no `v` parameter. -/
theorem C1_short_link_amended :
    (∀ id : String, get_video_id ("https://youtu.be/" ++ id) =
      (none, ["Error extracting video ID: Not a valid YouTube URL"])) ∧
    (∀ url parsed, urlparse url = Except.ok parsed →
      strContains parsed.netloc "youtube.com" = true →
      strContains parsed.netloc "youtu.be" = true →
      parse_qs_first parsed.query "v" = none →
      (get_video_id url).1 = some (String.mk (parsed.path.toList.drop 1))) := by
  constructor
  · intro id
    rfl
  · intro url parsed h0 h1 h2 h3
    simp only [get_video_id, get_video_id_body, h0, h1, h2, h3, Bool.not_true,
      Bool.false_eq_true, if_false, if_true]

/-- Witness for C1 (amended) at a concrete short-link URL and a concrete
double-marker host. -/
theorem C1_short_link_amended_witness :
    get_video_id ("https://youtu.be/" ++ "ABC123") =
      (none, ["Error extracting video ID: Not a valid YouTube URL"]) ∧
    urlparse "https://youtube.com.youtu.be/XYZ" =
      Except.ok ⟨"https", "youtube.com.youtu.be", "/XYZ", "", "", ""⟩ ∧
    (get_video_id "https://youtube.com.youtu.be/XYZ").1 = some "XYZ" :=
  ⟨C1_short_link_amended.1 "ABC123", by rfl,
    C1_short_link_amended.2 "https://youtube.com.youtu.be/XYZ"
      ⟨"https", "youtube.com.youtu.be", "/XYZ", "", "", ""⟩
      (by rfl) (by decide) (by decide) (by decide)⟩

/-- C3 counterexample: the claim as stated is false — for an empty segment
list the program returns `" ".join([]) == ""`, i.e. `some ""`, not `None`. -/
theorem C3_empty_or_error_counterexample :
    (get_video_transcript_run "https://www.youtube.com/watch?v=ABC123"
      (fun _ => Except.ok [])).value = some "" ∧
    (get_video_transcript_run "https://www.youtube.com/watch?v=ABC123"
      (fun _ => Except.ok [])).value ≠ none := by decide

/-- C3 (amended): an empty service response yields the empty string (falsy,
treated as absent downstream); a thrown service error yields `None` plus a
diagnostic; neither path raises. -/
theorem C3_empty_or_error_amended :
    (∀ url v service, (get_video_id url).1 = some v → v ≠ "" →
      service v = Except.ok [] →
      (get_video_transcript_run url service).value = some "") ∧
    (∀ url v service e, (get_video_id url).1 = some v → v ≠ "" →
      service v = Except.error e →
      (get_video_transcript_run url service).value = none ∧
      "Error getting transcript: " ++ e ∈ (get_video_transcript_run url service).printed) := by
  constructor
  · intro url v service h1 h2 h3
    rw [get_video_transcript_run_eq url v service h1 h2, h3]
    rfl
  · intro url v service e h1 h2 h3
    rw [get_video_transcript_run_eq url v service h1 h2, h3]
    exact ⟨rfl, by simp⟩

/-- Witness for C3 (amended) at concrete empty-response and error
services. -/
theorem C3_empty_or_error_amended_witness :
    (get_video_transcript_run "https://www.youtube.com/watch?v=vga"
      (fun _ => Except.ok [])).value = some "" ∧
    (get_video_transcript_run "https://www.youtube.com/watch?v=vgb"
      (fun _ => Except.error "no captions")).value = none :=
  ⟨C3_empty_or_error_amended.1 "https://www.youtube.com/watch?v=vga" "vga"
      (fun _ => Except.ok []) (by decide) (by decide) rfl,
    (C3_empty_or_error_amended.2 "https://www.youtube.com/watch?v=vgb" "vgb"
      (fun _ => Except.error "no captions") "no captions" (by decide) (by decide) rfl).1⟩

/-- C7: for every non-empty transcript, `summarize` sends exactly the
two-message request whose user content is the literal prefix followed by
the transcript and whose system content contains the title, speaker and
bullet-point instructions. -/
theorem C7_chat_request_shape :
    ∀ t model chat, t ≠ "" →
    (summarizeWith (some t) model chat).sentRequest = some (model, summarizeMessages t) ∧
    summarizeMessages t =
      [⟨"system", systemMessageContent⟩, ⟨"user", "Here is the transcript:\n " ++ t⟩] ∧
    (summarizeMessages t).length = 2 ∧
    strContains systemMessageContent "Mention the title of the video" = true ∧
    strContains systemMessageContent "the name of the speaker" = true ∧
    strContains systemMessageContent "use bullet points" = true := by
  intro t model chat ht
  have hv : t.isEmpty = false := by
    cases hv : t.isEmpty
    · rfl
    · exact absurd ((String.isEmpty_iff t).1 hv) ht
  refine ⟨?_, rfl, rfl, by decide, by decide, by decide⟩
  simp only [summarizeWith, hv, Bool.false_eq_true, if_false]
  cases chat model (summarizeMessages t) <;> rfl

/-- Witness for C7 at the spec's `Hello world` transcript. -/
theorem C7_chat_request_shape_witness :
    (summarizeWith (some "Hello world") "llama3.2"
      (fun _ _ => Except.error "model down")).sentRequest =
        some ("llama3.2", summarizeMessages "Hello world") ∧
    summarizeMessages "Hello world" =
      [⟨"system", systemMessageContent⟩,
       ⟨"user", "Here is the transcript:\n Hello world"⟩] := by
  have h := C7_chat_request_shape "Hello world" "llama3.2"
    (fun _ _ => Except.error "model down") (by decide)
  exact ⟨h.1, h.2.1⟩

/-- C10: across any sequence of the three method calls, the instance
fields `url` and `model` keep their construction-time values. -/
theorem C10_fields_never_mutated :
    ∀ (service : TranscriptService) (chat : ChatService) (selfId : Nat)
      (ops : List PipelineOp) (s : ProgState),
    (runOps service chat selfId s ops).inst.url = s.inst.url ∧
    (runOps service chat selfId s ops).inst.model = s.inst.model := by
  intro service chat selfId ops
  induction ops with
  | nil => exact fun s => ⟨rfl, rfl⟩
  | cons op rest ih =>
    intro s
    have h := ih (stepOp service chat selfId s op)
    have hstep : (stepOp service chat selfId s op).inst = s.inst := by
      cases op <;> rfl
    constructor
    · show (runOps service chat selfId (stepOp service chat selfId s op) rest).inst.url = _
      rw [h.1, hstep]
    · show (runOps service chat selfId (stepOp service chat selfId s op) rest).inst.model = _
      rw [h.2, hstep]

/-- C6 counterexample: the claim as stated is false — on an instance whose
URL yields no identifier, two memoized calls issue zero service calls, not
exactly one. -/
theorem C6_two_calls_counterexample :
    c6First.serviceCalls + c6Second.serviceCalls = 0 ∧
    c6First.serviceCalls + c6Second.serviceCalls ≠ 1 := by decide

/-- C6 (amended): for an instance whose URL yields a non-empty identifier
and whose key is not cached, two calls issue exactly one service call and
the second is a cache hit returning the first value; the cache never grows
past 100 entries, and a miss on a full cache evicts the least-recently-used
entry. -/
theorem C6_memoization_amended :
    (∀ (inst : YtSummarizer) (service : TranscriptService) (selfId : Nat)
        (cache : TranscriptCache) (v : String),
      cache.find? (fun p => p.1 == selfId) = none →
      (get_video_id inst.url).1 = some v → v ≠ "" →
      (get_video_transcript_memo inst service selfId cache).serviceCalls +
        (get_video_transcript_memo inst service selfId
          (get_video_transcript_memo inst service selfId cache).cache).serviceCalls = 1 ∧
      (get_video_transcript_memo inst service selfId
          (get_video_transcript_memo inst service selfId cache).cache).value =
        (get_video_transcript_memo inst service selfId cache).value ∧
      (get_video_transcript_memo inst service selfId
          (get_video_transcript_memo inst service selfId cache).cache).serviceCalls = 0) ∧
    (∀ (inst : YtSummarizer) (service : TranscriptService) (selfId : Nat)
        (cache : TranscriptCache), cache.length ≤ 100 →
      (get_video_transcript_memo inst service selfId cache).cache.length ≤ 100) ∧
    (∀ (inst : YtSummarizer) (service : TranscriptService) (selfId : Nat)
        (cache : TranscriptCache),
      cache.find? (fun p => p.1 == selfId) = none → cache.length = 100 →
      (get_video_transcript_memo inst service selfId cache).cache =
        (selfId, (get_video_transcript_run inst.url service).value) :: cache.dropLast) := by
  refine ⟨?_, ?_, ?_⟩
  · intro inst service selfId cache v hfind hid hne
    have hcalls : (get_video_transcript_run inst.url service).serviceCalls = 1 := by
      rw [get_video_transcript_run_eq inst.url v service hid hne]
      cases service v <;> rfl
    have h1 : get_video_transcript_memo inst service selfId cache =
        ⟨(get_video_transcript_run inst.url service).value,
         ((selfId, (get_video_transcript_run inst.url service).value) :: cache).take 100,
         (get_video_transcript_run inst.url service).serviceCalls,
         (get_video_transcript_run inst.url service).printed⟩ := by
      simp only [get_video_transcript_memo, hfind]
    have htake : ((selfId, (get_video_transcript_run inst.url service).value) :: cache).take 100 =
        (selfId, (get_video_transcript_run inst.url service).value) :: cache.take 99 :=
      List.take_succ_cons
    have h2 : get_video_transcript_memo inst service selfId
        (get_video_transcript_memo inst service selfId cache).cache =
        ⟨(get_video_transcript_run inst.url service).value,
         (selfId, (get_video_transcript_run inst.url service).value) ::
           ((selfId, (get_video_transcript_run inst.url service).value) ::
             cache.take 99).eraseP (fun q => q.1 == selfId),
         0, []⟩ := by
      rw [h1]
      simp only [htake]
      rw [get_video_transcript_memo]
      rw [List.find?_cons_of_pos _ (by simp)]
    rw [h2, h1]
    refine ⟨?_, rfl, rfl⟩
    show (get_video_transcript_run inst.url service).serviceCalls + 0 = 1
    rw [hcalls]
  · intro inst service selfId cache hlen
    cases hfind : cache.find? (fun p => p.1 == selfId) with
    | some p =>
      simp only [get_video_transcript_memo, hfind, List.length_cons]
      have hmem := List.mem_of_find?_eq_some hfind
      have hp := List.find?_some hfind
      have := @List.length_eraseP_add_one _ (fun q => q.1 == selfId) cache p hmem hp
      omega
    | none =>
      simp only [get_video_transcript_memo, hfind]
      rw [List.length_take]
      exact inf_le_left.trans (le_refl 100)
  · intro inst service selfId cache hfind hlen
    simp only [get_video_transcript_memo, hfind]
    rw [show (100 : Nat) = 99 + 1 from rfl, List.take_succ_cons]
    congr 1
    rw [List.dropLast_eq_take, hlen]

/-- Witness for C6 (amended) at a concrete instance and service. -/
theorem C6_memoization_amended_witness :
    ((get_video_transcript_memo ⟨"https://www.youtube.com/watch?v=QQ", "m"⟩
        (fun _ => Except.ok [Segment.mk "t"]) 5 []).serviceCalls +
      (get_video_transcript_memo ⟨"https://www.youtube.com/watch?v=QQ", "m"⟩
        (fun _ => Except.ok [Segment.mk "t"]) 5
        (get_video_transcript_memo ⟨"https://www.youtube.com/watch?v=QQ", "m"⟩
          (fun _ => Except.ok [Segment.mk "t"]) 5 []).cache).serviceCalls = 1) ∧
    (get_video_transcript_memo ⟨"https://www.youtube.com/watch?v=QQ", "m"⟩
        (fun _ => Except.ok [Segment.mk "t"]) 5
        (get_video_transcript_memo ⟨"https://www.youtube.com/watch?v=QQ", "m"⟩
          (fun _ => Except.ok [Segment.mk "t"]) 5 []).cache).serviceCalls = 0 := by
  have h := C6_memoization_amended.1 ⟨"https://www.youtube.com/watch?v=QQ", "m"⟩
    (fun _ => Except.ok [Segment.mk "t"]) 5 [] "QQ" rfl (by decide) (by decide)
  exact ⟨h.1, h.2.2⟩
